import Mathlib

/-!
Verification of the calendarify configuration loader/validator
(`src/config/index.ts`) against its specification.

The embedding models parsed JSON documents as an inductive `Json` type.
A `Json.obj` node carries the object's own enumerable properties in the
iteration order the JavaScript runtime yields for `Object.entries`
(keys are distinct by construction of a parsed object).  Validation
failures (thrown `ConfigValidationError`s) are modelled with
`Except String`, the carried string being the error message.  The host
timezone database consulted by `Intl.DateTimeFormat` is modelled as an
oracle parameter `tzValid : String → Bool`.
-/

/-- A parsed JSON document (the value space `JSON.parse` produces). -/
inductive Json where
  | null : Json
  | bool (b : Bool) : Json
  | num (n : Int) : Json
  | str (s : String) : Json
  | arr (elems : List Json) : Json
  | obj (entries : List (String × Json)) : Json

namespace Json

/-- JavaScript truthiness of a parsed JSON value (`!value` negates this). -/
def truthy : Json → Bool
  | .null => false
  | .bool b => b
  | .num n => n != 0
  | .str s => s != ""
  | .arr _ => true
  | .obj _ => true

/-- Whether `typeof value === 'object'` holds (true for objects, arrays
and `null`). -/
def typeofObject : Json → Bool
  | .null => true
  | .arr _ => true
  | .obj _ => true
  | _ => false

/-- Whether `typeof value === 'string'` holds. -/
def isString : Json → Bool
  | .str _ => true
  | _ => false

/-- Whether `Array.isArray(value)` holds. -/
def isArray : Json → Bool
  | .arr _ => true
  | _ => false

/-- The numeric value of a digit string. -/
def digitsVal (cs : List Char) : Nat :=
  cs.foldl (fun a d => 10 * a + (d.toNat - 48)) 0

/-- Whether `s` is a canonical array-index string below `len`
(JavaScript `in` on an array reports such indices as present): all
digits, no leading zero except for `"0"` itself, value below `len`. -/
def isIndexBelow (s : String) (len : Nat) : Bool :=
  match s.data with
  | [] => false
  | c :: cs =>
    (c :: cs).all (fun d => '0' ≤ d && d ≤ '9')
      && (c != '0' || cs.isEmpty)
      && digitsVal (c :: cs) < len

/-- The JavaScript `field in value` test, for the values the validator
reaches it on (objects and arrays).  Arrays expose their indices and
`length`; inherited `Array.prototype` members are omitted, as no field
name the validator ever queries collides with one. -/
def hasField : Json → String → Bool
  | .obj entries, f => entries.any (fun e => e.1 == f)
  | .arr xs, f => f == "length" || isIndexBelow f xs.length
  | _, _ => false

/-- Property access `value[field]` on an object (the validator only
reads fields it has already established to be present). -/
def getField : Json → String → Json
  | .obj entries, f =>
    match entries.find? (fun e => e.1 == f) with
    | some e => e.2
    | none => .null
  | _, _ => .null

/-- The string payload of a value already checked to be a string. -/
def asString : Json → String
  | .str s => s
  | _ => ""

/-- The element list of a value already checked to be an array. -/
def asArr : Json → List Json
  | .arr xs => xs
  | _ => []

/-- The entry list of a value already checked to be a plain object. -/
def asEntries : Json → List (String × Json)
  | .obj es => es
  | _ => []

end Json

/-- The coarse type tags the field checker distinguishes. -/
inductive FieldKind where
  | string : FieldKind
  | array : FieldKind
  | object : FieldKind
deriving Repr, DecidableEq

/-- The name of a coarse kind as it appears in the field spec. -/
def FieldKind.tag : FieldKind → String
  | .string => "string"
  | .array => "array"
  | .object => "object"

/-- Whether the `else if` chain of `validateObjectFields` fires for a
present field of declared kind `k` holding value `v`:
`string` fires on a non-string, `array` on a non-array, `object` on
anything that is falsy, not of object type, or an array. -/
def fieldKindError (k : FieldKind) (v : Json) : Bool :=
  match k with
  | .string => !v.isString
  | .array => !v.isArray
  | .object => !v.truthy || !v.typeofObject || v.isArray

/-- The type-mismatch message of `validateObjectFields`; the source
writes the article into each branch: `a string`, `an array`,
`an object`. -/
def fieldKindMessage (field : String) (objName : String) (k : FieldKind) : String :=
  match k with
  | .string => "Field '" ++ field ++ "' in " ++ objName ++ " must be a string"
  | .array => "Field '" ++ field ++ "' in " ++ objName ++ " must be an array"
  | .object => "Field '" ++ field ++ "' in " ++ objName ++ " must be an object"

/-- The per-field loop of `validateObjectFields`, over the declared
fields in spec order. -/
def validateFieldsLoop (obj : Json) (objName : String) :
    List (String × FieldKind) → Except String Unit
  | [] => .ok ()
  | (field, kind) :: rest =>
    if !(obj.hasField field) then
      .error ("Missing required field '" ++ field ++ "' in " ++ objName)
    else if fieldKindError kind (obj.getField field) then
      .error (fieldKindMessage field objName kind)
    else
      validateFieldsLoop obj objName rest

/-- `validateObjectFields` from the source: precondition that the value
is a (truthy) object, then the per-field presence/kind loop. -/
def validateObjectFields (obj : Json) (fields : List (String × FieldKind))
    (objName : String) : Except String Unit :=
  if !obj.truthy || !obj.typeofObject then
    .error (objName ++ " must be an object")
  else
    validateFieldsLoop obj objName fields

/-- `validateEnum` from the source: the value must be a string and a
member of the allowed list, else the listing error is thrown. -/
def validateEnum (value : Json) (allowedValues : List String)
    (fieldName : String) : Except String Unit :=
  if !value.isString || !(allowedValues.contains value.asString) then
    .error ("Invalid value for '" ++ fieldName ++ "'. Must be one of: "
      ++ String.intercalate ", " allowedValues)
  else
    .ok ()

/-- The time regex `^([0-1][0-9]|2[0-3]):([0-5][0-9])$` as a whole-string
test on the character sequence. -/
def timeRegexTest (s : String) : Bool :=
  match s.data with
  | [h1, h2, c, m1, m2] =>
    (((('0' ≤ h1 && h1 ≤ '1') && ('0' ≤ h2 && h2 ≤ '9'))
        || (h1 == '2' && ('0' ≤ h2 && h2 ≤ '3')))
      && c == ':')
      && (('0' ≤ m1 && m1 ≤ '5') && ('0' ≤ m2 && m2 ≤ '9'))
  | _ => false

/-- The field spec of the top-level structure check, in source order. -/
def topLevelFieldSpec : List (String × FieldKind) :=
  [("calendars", .array), ("shifts", .object), ("employees", .object),
   ("deletion_policy", .string), ("event_handling", .object),
   ("timezone", .string)]

/-- The field spec of a calendar entry. -/
def calendarFieldSpec : List (String × FieldKind) :=
  [("calendar_id", .string), ("employees", .array)]

/-- The field spec of a shift. -/
def shiftFieldSpec : List (String × FieldKind) :=
  [("label", .string), ("color", .string), ("period", .object)]

/-- The field spec of a shift period. -/
def periodFieldSpec : List (String × FieldKind) :=
  [("start", .string), ("end", .string)]

/-- The field spec of the event-handling block. -/
def eventHandlingFieldSpec : List (String × FieldKind) :=
  [("duplicate_shifts", .string), ("overlapping_shifts", .string),
   ("api_failures", .string), ("partial_updates", .string),
   ("missing_employees", .string), ("extra_employees", .string)]

/-- The loop body of the calendars loop: shape check of one entry,
labelled with its ascending index. -/
def validateCalendarsFrom (idx : Nat) : List Json → Except String Unit
  | [] => .ok ()
  | c :: rest => do
    validateObjectFields c calendarFieldSpec ("calendars[" ++ toString idx ++ "]")
    validateCalendarsFrom (idx + 1) rest

/-- The loop body of the shifts loop for one key: shape check of the
shift, shape check of its period, then the two time-format checks (the
source's two sequential throwing `if`s are rendered as nested `if`s). -/
def validateShift (key : String) (shift : Json) : Except String Unit := do
  validateObjectFields shift shiftFieldSpec ("shifts." ++ key)
  validateObjectFields (shift.getField "period") periodFieldSpec
    ("shifts." ++ key ++ ".period")
  if !timeRegexTest ((shift.getField "period").getField "start").asString then
    .error ("Invalid time format for shifts." ++ key
      ++ ".period.start. Must be HH:MM format.")
  else if !timeRegexTest ((shift.getField "period").getField "end").asString then
    .error ("Invalid time format for shifts." ++ key
      ++ ".period.end. Must be HH:MM format.")
  else
    .ok ()

/-- The shifts loop over `Object.entries` of the shifts map, in the
iteration order of the underlying object. -/
def validateShifts : List (String × Json) → Except String Unit
  | [] => .ok ()
  | (key, shift) :: rest => do
    validateShift key shift
    validateShifts rest

/-- `validateConfig` from the source, with the host timezone database
abstracted as the oracle `tzValid` (true iff `Intl.DateTimeFormat`
accepts the string as a `timeZone`). -/
def validateConfig (tzValid : String → Bool) (config : Json) :
    Except String Unit := do
  validateObjectFields config topLevelFieldSpec "config"
  validateEnum (config.getField "deletion_policy")
    ["full_sync", "preserve_manual", "append_only"] "deletion_policy"
  validateCalendarsFrom 0 (config.getField "calendars").asArr
  validateShifts (config.getField "shifts").asEntries
  validateObjectFields (config.getField "event_handling")
    eventHandlingFieldSpec "event_handling"
  validateEnum ((config.getField "event_handling").getField "duplicate_shifts")
    ["update", "skip", "create_new"] "event_handling.duplicate_shifts"
  validateEnum ((config.getField "event_handling").getField "overlapping_shifts")
    ["error", "warn", "ignore"] "event_handling.overlapping_shifts"
  validateEnum ((config.getField "event_handling").getField "api_failures")
    ["abort", "retry", "log_continue"] "event_handling.api_failures"
  validateEnum ((config.getField "event_handling").getField "partial_updates")
    ["preserve_existing", "revert_all", "continue"] "event_handling.partial_updates"
  validateEnum ((config.getField "event_handling").getField "missing_employees")
    ["error", "warn_continue", "skip"] "event_handling.missing_employees"
  validateEnum ((config.getField "event_handling").getField "extra_employees")
    ["create", "warn", "ignore"] "event_handling.extra_employees"
  if tzValid (config.getField "timezone").asString then
    .ok ()
  else
    .error ("Invalid timezone: " ++ (config.getField "timezone").asString)

/-- The two error kinds `loadConfig` surfaces: `ConfigValidationError`
(semantic validation and JSON parse failures) and the generic `Error`
wrapping an I/O failure. -/
inductive LoadError where
  | configValidation (message : String) : LoadError
  | generic (message : String) : LoadError
deriving Repr, DecidableEq

/-- `loadConfig` from the source.  The file read is modelled by its
outcome `readResult` (error side: the underlying I/O error's message,
never a `SyntaxError` nor a `ConfigValidationError`), `JSON.parse` by
the oracle `parse` (error side: the `SyntaxError` message), and the
host timezone database by `tzValid`.  The catch clause turns a parse
failure into a `ConfigValidationError`, re-throws validation errors
unchanged, and wraps anything else as a generic load error. -/
def loadConfig (readResult : Except String String)
    (parse : String → Except String Json) (tzValid : String → Bool) :
    Except LoadError Json :=
  match readResult with
  | .error m => .error (.generic ("Failed to load config file: " ++ m))
  | .ok content =>
    match parse content with
    | .error m => .error (.configValidation ("Invalid JSON in config file: " ++ m))
    | .ok config =>
      match validateConfig tzValid config with
      | .error m => .error (.configValidation m)
      | .ok _ => .ok config

/-- Builder for an event-handling object with the six policy fields in
declaration order. -/
def mkEventHandling (d o a p m e : Json) : Json :=
  .obj [("duplicate_shifts", d), ("overlapping_shifts", o), ("api_failures", a),
        ("partial_updates", p), ("missing_employees", m), ("extra_employees", e)]

/-- Builder for a shift object with string label/color and a period. -/
def mkShiftJson (label color startTime endTime : Json) : Json :=
  .obj [("label", label), ("color", color),
        ("period", .obj [("start", startTime), ("end", endTime)])]

/-- Builder for a top-level configuration document. -/
def mkConfigDoc (calendars shifts employees deletionPolicy eventHandling timezone : Json) : Json :=
  .obj [("calendars", calendars), ("shifts", shifts), ("employees", employees),
        ("deletion_policy", deletionPolicy), ("event_handling", eventHandling),
        ("timezone", timezone)]

/-- The event-handling block of the repository's valid test fixture. -/
def validEventHandling : Json :=
  mkEventHandling (.str "update") (.str "error") (.str "log_continue")
    (.str "preserve_existing") (.str "warn_continue") (.str "ignore")

/-- The calendars list of the repository's valid test fixture. -/
def validCalendars : Json :=
  .arr [.obj [("calendar_id", .str "jane.doe@example.com"),
              ("employees", .arr [.str "Jane Doe"])]]

/-- The shifts map of the repository's valid test fixture (the second
shift is overnight: start 22:00, end 06:00). -/
def validShifts : Json :=
  .obj [("M", mkShiftJson (.str "Morning Shift") (.str "#FFD700")
           (.str "08:00") (.str "16:00")),
        ("N", mkShiftJson (.str "Night Shift") (.str "#483D8B")
           (.str "22:00") (.str "06:00"))]

/-- The employees map of the repository's valid test fixture. -/
def validEmployees : Json :=
  .obj [("Jane Doe", .obj [("color", .str "#FF5733")])]

/-- The repository's valid test fixture: one calendar, two shifts (one
overnight), one employee, timezone Europe/Madrid. -/
def validConfigDoc : Json :=
  mkConfigDoc validCalendars validShifts validEmployees
    (.str "full_sync") validEventHandling (.str "Europe/Madrid")

/-- The valid fixture with an extra undeclared top-level field. -/
def validConfigDocExtra : Json :=
  .obj (validConfigDoc.asEntries ++ [("extra_setting", .num 42)])

/-- `runFirst checks j` runs the checks left to right and returns the
error of the first one that fails, or success when none does. -/
def runFirst (checks : List (Json → Except String Unit)) (j : Json) :
    Except String Unit :=
  match checks with
  | [] => .ok ()
  | c :: cs =>
    match c j with
    | .error e => .error e
    | .ok _ => runFirst cs j

/-- The timezone stanza of `validateConfig` as a standalone check. -/
def timezoneCheck (tzValid : String → Bool) (j : Json) : Except String Unit :=
  if tzValid (j.getField "timezone").asString then
    .ok ()
  else
    .error ("Invalid timezone: " ++ (j.getField "timezone").asString)

/-- Modelled from the spec: the fixed order of checks the specification
claims for `validateConfig`, before the final timezone check — top-level
shape, deletion-policy enum, calendars by ascending index, shifts,
event-handling shape, then the six event-handling enums in declaration
order. -/
def preTimezoneChecks : List (Json → Except String Unit) :=
  [fun j => validateObjectFields j topLevelFieldSpec "config",
   fun j => validateEnum (j.getField "deletion_policy")
     ["full_sync", "preserve_manual", "append_only"] "deletion_policy",
   fun j => validateCalendarsFrom 0 (j.getField "calendars").asArr,
   fun j => validateShifts (j.getField "shifts").asEntries,
   fun j => validateObjectFields (j.getField "event_handling")
     eventHandlingFieldSpec "event_handling",
   fun j => validateEnum ((j.getField "event_handling").getField "duplicate_shifts")
     ["update", "skip", "create_new"] "event_handling.duplicate_shifts",
   fun j => validateEnum ((j.getField "event_handling").getField "overlapping_shifts")
     ["error", "warn", "ignore"] "event_handling.overlapping_shifts",
   fun j => validateEnum ((j.getField "event_handling").getField "api_failures")
     ["abort", "retry", "log_continue"] "event_handling.api_failures",
   fun j => validateEnum ((j.getField "event_handling").getField "partial_updates")
     ["preserve_existing", "revert_all", "continue"] "event_handling.partial_updates",
   fun j => validateEnum ((j.getField "event_handling").getField "missing_employees")
     ["error", "warn_continue", "skip"] "event_handling.missing_employees",
   fun j => validateEnum ((j.getField "event_handling").getField "extra_employees")
     ["create", "warn", "ignore"] "event_handling.extra_employees"]

/-- Modelled from the spec: the full claimed check order, the timezone
check coming last. -/
def specOrderChecks (tzValid : String → Bool) : List (Json → Except String Unit) :=
  preTimezoneChecks ++ [timezoneCheck tzValid]

/-- Modelled from the spec: the claimed order of the per-shift checks —
shift shape, then period shape, then start time format, then end time
format. -/
def shiftSpecChecks (key : String) : List (Json → Except String Unit) :=
  [fun s => validateObjectFields s shiftFieldSpec ("shifts." ++ key),
   fun s => validateObjectFields (s.getField "period") periodFieldSpec
     ("shifts." ++ key ++ ".period"),
   fun s =>
     if timeRegexTest ((s.getField "period").getField "start").asString then
       .ok ()
     else
       .error ("Invalid time format for shifts." ++ key
         ++ ".period.start. Must be HH:MM format."),
   fun s =>
     if timeRegexTest ((s.getField "period").getField "end").asString then
       .ok ()
     else
       .error ("Invalid time format for shifts." ++ key
         ++ ".period.end. Must be HH:MM format.")]

/-- Modelled from the spec (C4): the offense of a single declared field —
the missing-field message when absent, the kind-mismatch message when
present with the wrong coarse kind, `none` otherwise. -/
def fieldOffense (obj : Json) (objName : String) (field : String)
    (kind : FieldKind) : Option String :=
  if !(obj.hasField field) then
    some ("Missing required field '" ++ field ++ "' in " ++ objName)
  else if fieldKindError kind (obj.getField field) then
    some (fieldKindMessage field objName kind)
  else
    none

/-- Modelled from the spec (C4): the first offending declared field, in
the order the field spec is defined. -/
def firstFieldOffense (obj : Json) (objName : String)
    (fields : List (String × FieldKind)) : Option String :=
  fields.findSome? (fun fk => fieldOffense obj objName fk.1 fk.2)

/-- Fixture for C8: the valid document with arbitrary employee-mapping
values and arbitrary calendar employee entries. -/
def opaquePartsDoc (empEntries : List (String × Json))
    (calEmployees : List Json) : Json :=
  mkConfigDoc
    (.arr [.obj [("calendar_id", .str "jane.doe@example.com"),
                 ("employees", .arr calEmployees)]])
    validShifts
    (.obj empEntries)
    (.str "full_sync")
    validEventHandling
    (.str "Europe/Madrid")

/-- The valid fixture with an unrecognized timezone string. -/
def invalidTzConfigDoc : Json :=
  mkConfigDoc validCalendars validShifts validEmployees
    (.str "full_sync") validEventHandling (.str "Invalid/Timezone")

lemma validateConfig_eq_runFirst (tzValid : String → Bool) (j : Json) :
    validateConfig tzValid j = runFirst (specOrderChecks tzValid) j := by
  unfold validateConfig specOrderChecks preTimezoneChecks
  simp only [List.cons_append, List.nil_append, runFirst]
  cases validateObjectFields j topLevelFieldSpec "config" <;> try rfl
  cases validateEnum (j.getField "deletion_policy")
    ["full_sync", "preserve_manual", "append_only"] "deletion_policy" <;> try rfl
  cases validateCalendarsFrom 0 (j.getField "calendars").asArr <;> try rfl
  cases validateShifts (j.getField "shifts").asEntries <;> try rfl
  cases validateObjectFields (j.getField "event_handling")
    eventHandlingFieldSpec "event_handling" <;> try rfl
  cases validateEnum ((j.getField "event_handling").getField "duplicate_shifts")
    ["update", "skip", "create_new"] "event_handling.duplicate_shifts" <;> try rfl
  cases validateEnum ((j.getField "event_handling").getField "overlapping_shifts")
    ["error", "warn", "ignore"] "event_handling.overlapping_shifts" <;> try rfl
  cases validateEnum ((j.getField "event_handling").getField "api_failures")
    ["abort", "retry", "log_continue"] "event_handling.api_failures" <;> try rfl
  cases validateEnum ((j.getField "event_handling").getField "partial_updates")
    ["preserve_existing", "revert_all", "continue"] "event_handling.partial_updates" <;> try rfl
  cases validateEnum ((j.getField "event_handling").getField "missing_employees")
    ["error", "warn_continue", "skip"] "event_handling.missing_employees" <;> try rfl
  cases validateEnum ((j.getField "event_handling").getField "extra_employees")
    ["create", "warn", "ignore"] "event_handling.extra_employees" <;> try rfl
  unfold timezoneCheck
  cases tzValid (j.getField "timezone").asString <;> rfl

lemma validateShift_eq_runFirst (key : String) (shift : Json) :
    validateShift key shift = runFirst (shiftSpecChecks key) shift := by
  unfold validateShift shiftSpecChecks
  simp only [runFirst]
  cases validateObjectFields shift shiftFieldSpec ("shifts." ++ key) <;> try rfl
  cases validateObjectFields (shift.getField "period") periodFieldSpec
    ("shifts." ++ key ++ ".period") <;> try rfl
  cases timeRegexTest ((shift.getField "period").getField "start").asString <;> try rfl
  cases timeRegexTest ((shift.getField "period").getField "end").asString <;> rfl

lemma runFirst_append (l1 l2 : List (Json → Except String Unit)) (j : Json) :
    runFirst (l1 ++ l2) j =
      match runFirst l1 j with
      | .error e => .error e
      | .ok _ => runFirst l2 j := by
  induction l1 with
  | nil => rfl
  | cons c cs ih =>
    simp only [List.cons_append, runFirst]
    cases c j <;> simp [ih]

lemma validateFieldsLoop_eq_firstOffense (obj : Json) (objName : String)
    (fields : List (String × FieldKind)) :
    validateFieldsLoop obj objName fields =
      match firstFieldOffense obj objName fields with
      | some e => .error e
      | none => .ok () := by
  induction fields with
  | nil => rfl
  | cons fk rest ih =>
    obtain ⟨field, kind⟩ := fk
    rw [firstFieldOffense, List.findSome?_cons]
    unfold validateFieldsLoop fieldOffense
    by_cases h1 : obj.hasField field
    · by_cases h2 : fieldKindError kind (obj.getField field)
      · simp [h1, h2]
      · simp only [h1, Bool.not_true, Bool.false_eq_true, if_false, h2]
        rw [ih, firstFieldOffense]
        rfl
    · simp only [Bool.not_eq_true] at h1
      simp [h1]

lemma validateShift_mkShiftJson (key label color startTime endTime : String) :
    validateShift key (mkShiftJson (.str label) (.str color)
        (.str startTime) (.str endTime))
      = if !timeRegexTest startTime then
          .error ("Invalid time format for shifts." ++ key
            ++ ".period.start. Must be HH:MM format.")
        else if !timeRegexTest endTime then
          .error ("Invalid time format for shifts." ++ key
            ++ ".period.end. Must be HH:MM format.")
        else
          .ok () := rfl

/-- Claim C1: for every document that passes all validation rules,
`loadConfig` returns the parsed value itself — the result is the very
parsed document, with no copying or normalization, so extra undeclared
fields present in the JSON are retained in the returned configuration. -/
theorem loadConfig_returns_parsed_value (content : String) (j : Json)
    (parse : String → Except String Json) (tzValid : String → Bool)
    (hparse : parse content = .ok j)
    (hvalid : validateConfig tzValid j = .ok ()) :
    loadConfig (.ok content) parse tzValid = .ok j := by
  simp [loadConfig, hparse, hvalid]

/-- Witness for C1: on the repository's fully valid fixture extended
with an extra undeclared top-level field, `loadConfig` returns exactly
that document, extra field included. -/
theorem loadConfig_returns_parsed_value_witness :
    loadConfig (.ok "config.json") (fun _ => .ok validConfigDocExtra)
        (fun _ => true)
      = .ok validConfigDocExtra :=
  loadConfig_returns_parsed_value "config.json" validConfigDocExtra
    (fun _ => .ok validConfigDocExtra) (fun _ => true) rfl rfl

/-- Claim C2: `validateConfig` performs its checks in exactly the claimed
fixed order and stops at the first violation: it coincides with running
the spec-order check list (top-level shape, deletion-policy enum,
calendars by ascending index, shifts, event-handling shape, the six
event-handling enums in declaration order, timezone last) and returning
the first error; and each shift's own checks coincide with running shape,
period shape, start format, end format in that order. -/
theorem validateConfig_check_order :
    (∀ (tzValid : String → Bool) (j : Json),
        validateConfig tzValid j = runFirst (specOrderChecks tzValid) j) ∧
    (∀ (key : String) (shift : Json),
        validateShift key shift = runFirst (shiftSpecChecks key) shift) :=
  ⟨validateConfig_eq_runFirst, validateShift_eq_runFirst⟩

/-- Claim C3: `loadConfig` normalizes failures into exactly two kinds —
a read failure becomes a non-`ConfigValidationError` error with message
`Failed to load config file: <m>`, a parse failure becomes a
`ConfigValidationError` with message `Invalid JSON in config file: <m>`,
a validation failure propagates unchanged as a `ConfigValidationError`,
and the generic kind is never the validation kind. -/
theorem loadConfig_error_normalization :
    (∀ (m : String) (parse : String → Except String Json)
        (tzValid : String → Bool),
        loadConfig (.error m) parse tzValid
          = .error (.generic ("Failed to load config file: " ++ m))) ∧
    (∀ (content m : String) (parse : String → Except String Json)
        (tzValid : String → Bool),
        parse content = .error m →
        loadConfig (.ok content) parse tzValid
          = .error (.configValidation ("Invalid JSON in config file: " ++ m))) ∧
    (∀ (content e : String) (j : Json) (parse : String → Except String Json)
        (tzValid : String → Bool),
        parse content = .ok j → validateConfig tzValid j = .error e →
        loadConfig (.ok content) parse tzValid
          = .error (.configValidation e)) ∧
    (∀ m m' : String, LoadError.generic m ≠ LoadError.configValidation m') := by
  refine ⟨fun m parse tzValid => rfl, ?_, ?_, ?_⟩
  · intro content m parse tzValid h
    simp [loadConfig, h]
  · intro content e j parse tzValid hp hv
    simp [loadConfig, hp, hv]
  · intro m m' h
    exact LoadError.noConfusion h

/-- Witness for C3: a concrete parse failure is surfaced as the
validation kind with the claimed prefix, and a concrete validation
failure (a top-level array document) propagates unchanged. -/
theorem loadConfig_error_normalization_witness :
    loadConfig (.ok "not json") (fun _ => .error "Unexpected token")
        (fun _ => true)
      = .error (.configValidation "Invalid JSON in config file: Unexpected token") ∧
    loadConfig (.ok "doc") (fun _ => .ok (Json.arr [])) (fun _ => true)
      = .error (.configValidation "Missing required field 'calendars' in config") :=
  ⟨loadConfig_error_normalization.2.1 "not json" "Unexpected token"
      (fun _ => .error "Unexpected token") (fun _ => true) rfl,
   loadConfig_error_normalization.2.2.1 "doc"
      "Missing required field 'calendars' in config" (Json.arr [])
      (fun _ => .ok (Json.arr [])) (fun _ => true) rfl rfl⟩

/-- Claim C9: a top-level JSON array is not rejected with
`config must be an object` — it passes the non-null object precondition —
and instead fails the first field-presence check with
`Missing required field 'calendars' in config`. -/
theorem array_document_missing_calendars (xs : List Json)
    (tzValid : String → Bool) :
    validateConfig tzValid (Json.arr xs)
        = .error "Missing required field 'calendars' in config" ∧
    "Missing required field 'calendars' in config"
        ≠ "config must be an object" :=
  ⟨rfl, by decide⟩

/-- Claim C10: `validateConfig` is deterministic over the parsed document
with the host timezone resolver fixed — equal documents validate to the
same outcome, both accepting or both failing with the identical message
(the embedding is a pure function of the document, which is never
modified). -/
theorem validateConfig_deterministic (tzValid : String → Bool)
    (j1 j2 : Json) (h : j1 = j2) :
    validateConfig tzValid j1 = validateConfig tzValid j2 ∧
    ((validateConfig tzValid j1 = .ok () ∧ validateConfig tzValid j2 = .ok ())
      ∨ ∃ m, validateConfig tzValid j1 = .error m
          ∧ validateConfig tzValid j2 = .error m) := by
  subst h
  refine ⟨rfl, ?_⟩
  cases validateConfig tzValid j1 with
  | ok u =>
    left
    cases u
    exact ⟨rfl, rfl⟩
  | error m =>
    right
    exact ⟨m, rfl, rfl⟩

/-- Witness for C10 at the valid fixture with an always-accepting
timezone oracle: two runs agree and both accept. -/
theorem validateConfig_deterministic_witness :
    validateConfig (fun _ => true) validConfigDoc
        = validateConfig (fun _ => true) validConfigDoc ∧
    ((validateConfig (fun _ => true) validConfigDoc = .ok ()
        ∧ validateConfig (fun _ => true) validConfigDoc = .ok ())
      ∨ ∃ m, validateConfig (fun _ => true) validConfigDoc = .error m
          ∧ validateConfig (fun _ => true) validConfigDoc = .error m) :=
  validateConfig_deterministic (fun _ => true) validConfigDoc validConfigDoc rfl

/-- Counterexample to C4 as stated: with `calendars` present but not an
array, the emitted message reads `must be an array` — the claim's uniform
template `must be a <kind>` (which renders `must be a array` for the
array kind) does not match it. -/
theorem field_kind_message_counterexample :
    validateObjectFields (Json.obj [("calendars", Json.num 1)])
        [("calendars", FieldKind.array)] "config"
      = .error "Field 'calendars' in config must be an array" ∧
    "Field 'calendars' in config must be an array"
      ≠ "Field 'calendars' in config must be a array" :=
  ⟨rfl, by decide⟩

/-- Claim C4 (amended): on any value passing the object precondition,
the field checker processes the declared fields in spec order and fails
on the first offending field — with message
`Missing required field '<field>' in <contextLabel>` when absent, and
`Field '<field>' in <contextLabel> must be a string` /
`must be an array` / `must be an object` (the article agreeing with the
kind) when present with the wrong coarse kind. -/
theorem validateObjectFields_first_offense (obj : Json)
    (fields : List (String × FieldKind)) (objName : String)
    (h : obj.truthy = true ∧ obj.typeofObject = true) :
    validateObjectFields obj fields objName =
      match firstFieldOffense obj objName fields with
      | some e => .error e
      | none => .ok () := by
  unfold validateObjectFields
  rw [h.1, h.2]
  simpa using validateFieldsLoop_eq_firstOffense obj objName fields

/-- Witness for C4 (amended): on a document whose first offense is the
mistyped `calendars` field, the checker reports exactly that field. -/
theorem validateObjectFields_first_offense_witness :
    validateObjectFields (Json.obj [("calendars", Json.str "x")])
        topLevelFieldSpec "config"
      = .error "Field 'calendars' in config must be an array" := by
  rw [validateObjectFields_first_offense
    (Json.obj [("calendars", Json.str "x")]) topLevelFieldSpec "config"
    ⟨rfl, rfl⟩]
  rfl

/-- Claim C5: a shift period (inside an otherwise well-shaped shift) is
accepted exactly when both `start` and `end` match the time regex, the
failure message names `shifts.<key>.period.start` / `.end`, the regex
accepts `08:00`, `23:59`, `00:00` and rejects `8:00`, `24:00`, `12:60`,
`8:0`, and no constraint relates start to end — the overnight period
22:00 to 06:00 is accepted. -/
theorem shift_period_time_format :
    (∀ (key label color startTime endTime : String),
        validateShift key (mkShiftJson (.str label) (.str color)
            (.str startTime) (.str endTime))
          = if timeRegexTest startTime then
              if timeRegexTest endTime then
                .ok ()
              else
                .error ("Invalid time format for shifts." ++ key
                  ++ ".period.end. Must be HH:MM format.")
            else
              .error ("Invalid time format for shifts." ++ key
                ++ ".period.start. Must be HH:MM format.")) ∧
    timeRegexTest "08:00" = true ∧ timeRegexTest "23:59" = true ∧
    timeRegexTest "00:00" = true ∧ timeRegexTest "8:00" = false ∧
    timeRegexTest "24:00" = false ∧ timeRegexTest "12:60" = false ∧
    timeRegexTest "8:0" = false ∧
    validateShift "N" (mkShiftJson (.str "Night Shift") (.str "#483D8B")
        (.str "22:00") (.str "06:00"))
      = .ok () := by
  refine ⟨?_, rfl, rfl, rfl, rfl, rfl, rfl, rfl, rfl⟩
  intro key label color startTime endTime
  rw [validateShift_mkShiftJson]
  cases timeRegexTest startTime <;> cases timeRegexTest endTime <;> rfl

/-- Claim C8: validation never descends into the values of the
`employees` mapping nor into the elements of a calendar's `employees`
array — a document carrying arbitrary values there still validates,
all other rules passing. -/
theorem employee_contents_not_validated (empEntries : List (String × Json))
    (calEmployees : List Json) (tzValid : String → Bool)
    (h : tzValid "Europe/Madrid" = true) :
    validateConfig tzValid (opaquePartsDoc empEntries calEmployees)
      = .ok () := by
  have hred : validateConfig tzValid (opaquePartsDoc empEntries calEmployees)
      = if tzValid "Europe/Madrid" then
          .ok ()
        else
          .error "Invalid timezone: Europe/Madrid" := rfl
  rw [hred, h]
  rfl

/-- Witness for C8: an employee mapped to a bare number and a calendar
employee array holding a number and `null` still validate. -/
theorem employee_contents_not_validated_witness :
    validateConfig (fun _ => true)
        (opaquePartsDoc [("Jane Doe", Json.num 7)] [Json.num 1, Json.null])
      = .ok () :=
  employee_contents_not_validated [("Jane Doe", Json.num 7)]
    [Json.num 1, Json.null] (fun _ => true) rfl

/-- Claim C6: the enum checker succeeds exactly when the value is a
string that is an exact member of the allowed set, otherwise failing
with `Invalid value for '<fieldName>'. Must be one of: <allowed joined
by comma-space>`; within `validateConfig` the field names used are
`deletion_policy` and `event_handling.<field>`, as the seven concrete
out-of-enum documents show. -/
theorem validateEnum_membership :
    (∀ (value : Json) (allowedValues : List String) (fieldName : String),
      (validateEnum value allowedValues fieldName = .ok ()
        ↔ ∃ s, value = Json.str s ∧ s ∈ allowedValues) ∧
      (validateEnum value allowedValues fieldName = .ok ()
        ∨ validateEnum value allowedValues fieldName
            = .error ("Invalid value for '" ++ fieldName ++ "'. Must be one of: "
                ++ String.intercalate ", " allowedValues))) ∧
    validateConfig (fun _ => true)
        (mkConfigDoc validCalendars validShifts validEmployees
          (.str "sometimes") validEventHandling (.str "Europe/Madrid"))
      = .error "Invalid value for 'deletion_policy'. Must be one of: full_sync, preserve_manual, append_only" ∧
    validateConfig (fun _ => true)
        (mkConfigDoc validCalendars validShifts validEmployees
          (.str "full_sync")
          (mkEventHandling (.str "bogus") (.str "error") (.str "log_continue")
            (.str "preserve_existing") (.str "warn_continue") (.str "ignore"))
          (.str "Europe/Madrid"))
      = .error "Invalid value for 'event_handling.duplicate_shifts'. Must be one of: update, skip, create_new" ∧
    validateConfig (fun _ => true)
        (mkConfigDoc validCalendars validShifts validEmployees
          (.str "full_sync")
          (mkEventHandling (.str "update") (.str "bogus") (.str "log_continue")
            (.str "preserve_existing") (.str "warn_continue") (.str "ignore"))
          (.str "Europe/Madrid"))
      = .error "Invalid value for 'event_handling.overlapping_shifts'. Must be one of: error, warn, ignore" ∧
    validateConfig (fun _ => true)
        (mkConfigDoc validCalendars validShifts validEmployees
          (.str "full_sync")
          (mkEventHandling (.str "update") (.str "error") (.str "bogus")
            (.str "preserve_existing") (.str "warn_continue") (.str "ignore"))
          (.str "Europe/Madrid"))
      = .error "Invalid value for 'event_handling.api_failures'. Must be one of: abort, retry, log_continue" ∧
    validateConfig (fun _ => true)
        (mkConfigDoc validCalendars validShifts validEmployees
          (.str "full_sync")
          (mkEventHandling (.str "update") (.str "error") (.str "log_continue")
            (.str "bogus") (.str "warn_continue") (.str "ignore"))
          (.str "Europe/Madrid"))
      = .error "Invalid value for 'event_handling.partial_updates'. Must be one of: preserve_existing, revert_all, continue" ∧
    validateConfig (fun _ => true)
        (mkConfigDoc validCalendars validShifts validEmployees
          (.str "full_sync")
          (mkEventHandling (.str "update") (.str "error") (.str "log_continue")
            (.str "preserve_existing") (.str "bogus") (.str "ignore"))
          (.str "Europe/Madrid"))
      = .error "Invalid value for 'event_handling.missing_employees'. Must be one of: error, warn_continue, skip" ∧
    validateConfig (fun _ => true)
        (mkConfigDoc validCalendars validShifts validEmployees
          (.str "full_sync")
          (mkEventHandling (.str "update") (.str "error") (.str "log_continue")
            (.str "preserve_existing") (.str "warn_continue") (.str "bogus"))
          (.str "Europe/Madrid"))
      = .error "Invalid value for 'event_handling.extra_employees'. Must be one of: create, warn, ignore" := by
  refine ⟨?_, rfl, rfl, rfl, rfl, rfl, rfl, rfl⟩
  intro value allowedValues fieldName
  constructor
  · cases value with
    | str s =>
      unfold validateEnum
      by_cases hc : s ∈ allowedValues
      · have hcb : allowedValues.contains s = true := List.elem_iff.mpr hc
        simp [Json.isString, Json.asString, hcb, hc]
      · have hcb : allowedValues.contains s = false := by
          rw [← Bool.not_eq_true]
          intro hcontra
          exact hc (List.elem_iff.mp hcontra)
        simp [Json.isString, Json.asString, hcb, hc]
    | null => simp [validateEnum, Json.isString]
    | bool b => simp [validateEnum, Json.isString]
    | num n => simp [validateEnum, Json.isString]
    | arr xs => simp [validateEnum, Json.isString]
    | obj es => simp [validateEnum, Json.isString]
  · unfold validateEnum
    split
    · right
      rfl
    · left
      rfl

/-- Claim C7: the timezone check runs last — on any document passing
every earlier check, `validateConfig` succeeds or fails solely on the
host resolver's verdict (modelled by the oracle `tzValid`), failing with
exactly `Invalid timezone: <value>`. -/
theorem timezone_checked_last (tzValid : String → Bool) (j : Json)
    (h : runFirst preTimezoneChecks j = .ok ()) :
    validateConfig tzValid j =
      if tzValid (j.getField "timezone").asString then
        .ok ()
      else
        .error ("Invalid timezone: " ++ (j.getField "timezone").asString) := by
  rw [validateConfig_eq_runFirst]
  unfold specOrderChecks
  rw [runFirst_append, h]
  cases htz : tzValid (j.getField "timezone").asString <;>
    simp [runFirst, timezoneCheck, htz]

/-- Witness for C7: an otherwise fully valid document with timezone
`Invalid/Timezone`, under an oracle recognizing only `Europe/Madrid`,
fails with exactly the claimed message. -/
theorem timezone_checked_last_witness :
    validateConfig (fun s => s == "Europe/Madrid") invalidTzConfigDoc
      = .error "Invalid timezone: Invalid/Timezone" := by
  rw [timezone_checked_last (fun s => s == "Europe/Madrid")
    invalidTzConfigDoc rfl]
  rfl
